import Mathlib

/-!
Verification of `pzUpdateManager/pz_update_monitor.py`: a shallow embedding
of the RCON protocol client, the Steam version store, the mod-check log
scanner and the restart scheduler, with theorems settling the spec claims.

Machine integers are modelled as `Int`/`Nat` with explicit reduction
modulo 2^32 where the Python code packs 32-bit fields; byte sequences are
`List Nat`; fallible Python code is modelled with `Option`/`Except` or with
explicit boolean outcome parameters for external effects (socket sends,
subprocess calls), and traces of external actions are returned as lists.
-/

namespace PZ

/-! ## Byte-level packet framing (`struct.pack('<i', ...)` / `struct.unpack`) -/

/-- Little-endian 4-byte encoding of a Python int packed with `struct.pack('<i', n)`
(the value is reduced modulo 2^32; `emod` gives the nonnegative representative). -/
def int32ToBytes (n : Int) : List Nat :=
  let m := (n % 4294967296).toNat
  [m % 256, m / 256 % 256, m / 65536 % 256, m / 16777216 % 256]

/-- Unsigned little-endian value of (the first) 4 bytes. -/
def bytesToNat32 : List Nat → Nat
  | a :: b :: c :: d :: _ => a + 256 * b + 65536 * c + 16777216 * d
  | _ => 0

/-- Signed interpretation, as `struct.unpack('<i', ...)` produces. -/
def bytesToInt32 (bs : List Nat) : Int :=
  let u := bytesToNat32 bs
  if u < 2147483648 then (u : Int) else (u : Int) - 4294967296

/-- The frame payload built by `RCONClient._send_packet` (everything after the
length prefix): request id, packet type, UTF-8 body bytes, two NUL terminators. -/
def mkFrameData (reqId ptype : Int) (body : List Nat) : List Nat :=
  int32ToBytes reqId ++ int32ToBytes ptype ++ body ++ [0, 0]

/-- `RCONClient._receive_packet`, applied to the frame payload already read off
the socket: `struct.unpack('<ii', data[:8])` fails (raises) when fewer than
8 bytes are present, and the body is `data[8:-2]` — the slice from index 8 up
to two bytes before the end, dropping the NUL terminators. -/
def recvPacket (data : List Nat) : Option (Int × Int × List Nat) :=
  if data.length < 8 then none
  else some (bytesToInt32 (data.take 4), bytesToInt32 ((data.drop 4).take 4),
             (data.take (data.length - 2)).drop 8)

/-! ## `RCONClient.send_command`: the multi-packet read loop

One read attempt on the socket is modelled as a `ReadEvent`: a whole frame
payload arrives, or the read times out (`socket.timeout`), or some other
socket error is raised. The loop body catches `socket.timeout` with `break`
and every other exception also with `break`, after incrementing the packet
counter only on a successful receive. -/

inductive ReadEvent : Type
  | frame (data : List Nat)
  | timeout
  | sockError
deriving DecidableEq, Repr

/-- The accumulation loop of `send_command` (`while packet_count < max_packets`),
returning the concatenated response bytes. The fuel argument is
`max_packets - packet_count`; an exhausted event list stands for a read that
would never return and is treated as a stop (unreachable in practice because
every read is bounded by a timeout). A frame whose parse fails (fewer than
8 payload bytes) raises inside `_receive_packet` and is caught by the
`except Exception: break` arm. -/
def sendCommandLoop : List ReadEvent → Nat → List Nat
  | _, 0 => []
  | [], _ + 1 => []
  | ReadEvent.timeout :: _, _ + 1 => []
  | ReadEvent.sockError :: _, _ + 1 => []
  | ReadEvent.frame data :: rest, n + 1 =>
    match recvPacket data with
    | none => []
    | some (_, _, body) =>
      if body.length = 0 then [] else body ++ sendCommandLoop rest n

/-- `max_packets = 10` in `send_command`. -/
def maxPackets : Nat := 10

/-- The response text returned by `send_command`'s read loop. -/
def sendCommandResponse (events : List ReadEvent) : List Nat :=
  sendCommandLoop events maxPackets

/-- The bodies of the packets successfully received before the loop stops,
in arrival order (mirrors the loop; the terminating zero-length body, when
present, is recorded too — it contributes nothing to the concatenation). -/
def bodiesRead : List ReadEvent → Nat → List (List Nat)
  | _, 0 => []
  | [], _ + 1 => []
  | ReadEvent.timeout :: _, _ + 1 => []
  | ReadEvent.sockError :: _, _ + 1 => []
  | ReadEvent.frame data :: rest, n + 1 =>
    match recvPacket data with
    | none => []
    | some (_, _, body) =>
      if body.length = 0 then [body] else body :: bodiesRead rest n

/-! ## `send_command` with connection state, and `connect` -/

/-- Errors surfaced by the RCON client. `authFailed` models
`Exception("RCON authentication failed")`; `socketError` any other raised
socket/protocol exception. -/
inductive RCONError : Type
  | authFailed
  | socketError
deriving DecidableEq, Repr

/-- Outcome of `send_command` on an already-connected client: the value
returned or the exception raised, and whether the socket is still held
(`self.socket` not closed/cleared) afterwards. -/
structure SendOutcome : Type where
  result : Except RCONError (List Nat)
  socketOpen : Bool
deriving Repr

/-- `RCONClient.send_command` on a connected client. `sendOk` says whether
`self._send_packet(2, command)` succeeds; if it raises, the outer
`except` closes the socket and re-raises. Exceptions inside the read loop
are all caught by the inner `except` arms (`break`), so once the send
succeeds the method returns the accumulated partial response and the
socket stays open. -/
def sendCommand (sendOk : Bool) (events : List ReadEvent) : SendOutcome :=
  if sendOk then ⟨Except.ok (sendCommandLoop events maxPackets), true⟩
  else ⟨Except.error RCONError.socketError, false⟩

/-- `RCONClient.connect`. `sockOk` says whether socket creation/connect and
the auth send/receive round-trip succeed at the socket level; `authFrame` is
the payload of the one response packet read. Returns the Python result
(`True` or the raised exception) together with whether `self.socket` is
still set afterwards (the `except` arm closes it and sets it to `None`). -/
def rconConnect (sockOk : Bool) (authFrame : List Nat) :
    Except RCONError Bool × Bool :=
  if sockOk then
    match recvPacket authFrame with
    | none => (Except.error RCONError.socketError, false)
    | some (reqId, _, _) =>
      if reqId = -1 then (Except.error RCONError.authFailed, false)
      else (Except.ok true, true)
  else (Except.error RCONError.socketError, false)

/-! ## String helpers for the monitor (Python `in`, `strip`, `int`) -/

/-- Whether `pat` occurs at the head of the character list. -/
def matchesAt : List Char → List Char → Bool
  | [], _ => true
  | _ :: _, [] => false
  | p :: ps, c :: cs => p == c && matchesAt ps cs

/-- Whether `pat` occurs as a contiguous sublist. -/
def hasSubList (pat : List Char) : List Char → Bool
  | [] => matchesAt pat []
  | c :: cs => matchesAt pat (c :: cs) || hasSubList pat cs

/-- Python's substring test `pat in s`. -/
def strContains (s pat : String) : Bool := hasSubList pat.data s.data

/-- Python's `str.strip()` (ASCII whitespace; the log patterns below carry no
boundary whitespace, so the exact whitespace set is immaterial to every check
made on stripped lines). -/
def pyStrip (s : String) : String :=
  ⟨((s.data.dropWhile Char.isWhitespace).reverse.dropWhile Char.isWhitespace).reverse⟩

/-- Numeric value of a digit string. -/
def digitsVal (ds : List Char) : Nat :=
  ds.foldl (fun acc c => 10 * acc + (c.toNat - '0'.toNat)) 0

/-- Python's `int(s)` for decimal strings: optional surrounding whitespace,
optional sign, at least one digit; anything else raises `ValueError`
(modelled as `none`). -/
def pyInt (s : String) : Option Int :=
  match (pyStrip s).data with
  | [] => none
  | '+' :: ds =>
    if ds ≠ [] ∧ ds.all Char.isDigit then some (digitsVal ds : Int) else none
  | '-' :: ds =>
    if ds ≠ [] ∧ ds.all Char.isDigit then some (-(digitsVal ds : Int)) else none
  | ds =>
    if ds.all Char.isDigit then some (digitsVal ds : Int) else none

/-! ## `PZUpdateMonitor.check_server_mods_need_update`

The scan is a pure function of the two log snapshots the method can read:
`logs1` is what `get_recent_log_content` returns after the 8-second settle
sleep, and `logs2` what it returns after the extra 5-second sleep taken only
in the `Checking....` branch. `rconOk` is whether the initial
`send_command("checkModsNeedUpdate")` succeeds (if it raises, the outer
`except` logs and returns `False`). -/

def markerPat : String := "CheckModsNeedUpdate:"
def updatedPat : String := "CheckModsNeedUpdate: Mods updated."
def needUpdatePat : String := "CheckModsNeedUpdate: Mods need update."
def checkingPat : String := "CheckModsNeedUpdate: Checking...."

/-- The `check_lines` list of the first scan: lines containing the marker,
each stripped as it is collected. -/
def checkLines (logs : List String) : List String :=
  (logs.filter (fun l => strContains l markerPat)).map pyStrip

/-- The secondary heuristic: any line containing both `"Needs updating"` and
`"Mod "` (the `mod_update_lines` scan; `return True` iff the list is
non-empty). -/
def secondaryScan (logs : List String) : Bool :=
  logs.any (fun l => strContains l "Needs updating" && strContains l "Mod ")

def checkServerModsNeedUpdate (rconOk : Bool) (logs1 logs2 : List String) : Bool :=
  if !rconOk then false
  else if logs1 = [] then false
  else
    match (checkLines logs1).getLast? with
    | none => false
    | some latest =>
      if strContains latest updatedPat then false
      else if strContains latest needUpdatePat then true
      else if strContains latest checkingPat then
        -- re-read the logs; this second `check_lines` is collected unstripped
        match (logs2.filter (fun l => strContains l markerPat)).getLast? with
        | none => secondaryScan logs2
        | some latest2 =>
          if strContains latest2 updatedPat then false
          else if strContains latest2 needUpdatePat then true
          else secondaryScan logs2
      else secondaryScan logs1

/-! ## `PZUpdateMonitor.get_player_count` -/

def playersPat : String := "Players connected ("

/-- Worker for Python's `s.split(sep)` (non-empty `sep`): cut at each
occurrence of `sep`, scanning left to right, non-overlapping. The fuel is an
upper bound on the scan steps; each step consumes at least one character, so
`s.length` fuel never runs out. -/
def splitAux (sep : List Char) : Nat → List Char → List Char → List (List Char)
  | _, [], acc => [acc.reverse]
  | 0, s, acc => [acc.reverse ++ s]
  | fuel + 1, c :: cs, acc =>
    if matchesAt sep (c :: cs) then
      acc.reverse :: splitAux sep fuel (List.drop (sep.length - 1) cs) []
    else splitAux sep fuel cs (c :: acc)

/-- Python's `s.split(sep)` for a non-empty separator. -/
def pySplit (s sep : String) : List String :=
  (splitAux sep.data s.data.length s.data []).map (fun cs => String.mk cs)

/-- The slice `response.split("Players connected (")[1].split(")")[0]`
fed to `int()`. -/
def countStrOf (resp : String) : String :=
  (pySplit ((pySplit resp playersPat).getD 1 "") ")").getD 0 ""

/-- `get_player_count` as a function of the outcome of the
`send_command("players")` exchange: `none` when it raises, `some resp`
when it returns `resp`. A `ValueError` from `int()` is caught by the
method's `except` and yields the `-1` error state. -/
def getPlayerCount (result : Option String) : Int :=
  match result with
  | none => -1
  | some resp =>
    if resp ≠ "" && strContains resp playersPat then
      match pyInt (countStrOf resp) with
      | some n => n
      | none => -1
    else 0

/-! ## Version store (`steam_versions` table) and
`PZUpdateMonitor.check_steam_game_update` -/

structure VersionRecord : Type where
  vtype : String
  appId : String
  buildId : String
  lastChecked : Nat
deriving DecidableEq, Repr

def keyMatches (t a : String) (r : VersionRecord) : Bool :=
  r.vtype == t && r.appId == a

/-- `SELECT build_id FROM steam_versions WHERE type=? AND app_id=?`. -/
def lookupBuild (store : List VersionRecord) (t a : String) : Option String :=
  (store.find? (keyMatches t a)).map (fun r => r.buildId)

/-- `INSERT OR REPLACE` against the `UNIQUE(type, app_id)` constraint:
replace the conflicting row if present, else append a fresh row. -/
def upsert (store : List VersionRecord) (r : VersionRecord) : List VersionRecord :=
  if store.any (keyMatches r.vtype r.appId) then
    store.map (fun x => if keyMatches r.vtype r.appId x then r else x)
  else store ++ [r]

/-- Number of rows with the given key. -/
def countKey (store : List VersionRecord) (t a : String) : Nat :=
  (store.filter (keyMatches t a)).length

/-- Outcome of the `requests.get` to the Steam build endpoint: HTTP 200 with
a parsed build id, a non-200 status (the method then falls through to
`return False` without touching the store), or a raised exception (network
error, JSON/key error — caught and logged). -/
inductive FetchResult : Type
  | ok (buildId : String)
  | badStatus
  | exn
deriving DecidableEq, Repr

def checkSteamGameUpdate (fetch : FetchResult) (appId : String) (now : Nat)
    (store : List VersionRecord) : Bool × List VersionRecord :=
  match fetch with
  | FetchResult.ok steamBuild =>
    match lookupBuild store "game" appId with
    | none =>
      -- first run: initialize, do not trigger
      (false, upsert store ⟨"game", appId, steamBuild, now⟩)
    | some old =>
      if old ≠ steamBuild then
        (true, upsert store ⟨"game", appId, steamBuild, now⟩)
      else (false, store)
  | _ => (false, store)

/-! ## Restart scheduler state and actions -/

inductive TimerKind : Type
  | finalWarning
  | doRestart
deriving DecidableEq, Repr

/-- Externally visible actions performed synchronously by the restart path. -/
inductive RAction : Type
  | rconCmd (cmd : String)
  | sleepSecs (n : Nat)
  | systemctlRestart
deriving DecidableEq, Repr

/-- Whether an action is a `servermsg` broadcast command. -/
def isServerMsg : RAction → Bool
  | RAction.rconCmd c => strContains c "servermsg"
  | _ => false

/-- The monitor's scheduling state: the `restart_scheduled` flag, the timers
started so far (delay in seconds, callback), and the broadcast messages sent
immediately via `send_server_message`. -/
structure SchedState : Type where
  restartScheduled : Bool
  timers : List (Nat × TimerKind)
  sent : List String
deriving DecidableEq, Repr

/-- The initial broadcast of `schedule_restart_with_warnings` (leading emoji
character elided). -/
def initialWarningMsg : String :=
  "SERVER UPDATE AVAILABLE! Server will restart in 30 minutes. Please finish your current activities."

/-- `PZUpdateMonitor.schedule_restart_with_warnings`: a guard on the flag,
then set the flag, broadcast the initial notice, and start the 29-minute
warning timer and the 30-minute restart timer. -/
def scheduleRestartWithWarnings (st : SchedState) : SchedState :=
  if st.restartScheduled then st
  else
    { restartScheduled := true,
      timers := st.timers ++ [(29 * 60, TimerKind.finalWarning), (30 * 60, TimerKind.doRestart)],
      sent := st.sent ++ [initialWarningMsg] }

/-- `PZUpdateMonitor.restart_server`: send `save`, sleep 5 seconds, run
`sudo systemctl restart <service>`; only after a fully successful run is
`self.restart_scheduled = False` executed. `saveOk` / `restartOk` say
whether the two fallible steps succeed; the trace lists the actions
attempted and the second component is the `restart_scheduled` flag
afterwards, given its value `scheduled` on entry (the `except` arm only
logs). -/
def restartServer (saveOk restartOk : Bool) (scheduled : Bool) :
    List RAction × Bool :=
  if saveOk then
    if restartOk then
      ([RAction.rconCmd "save", RAction.sleepSecs 5, RAction.systemctlRestart], false)
    else
      ([RAction.rconCmd "save", RAction.sleepSecs 5, RAction.systemctlRestart], scheduled)
  else
    ([RAction.rconCmd "save"], scheduled)

/-- `PZUpdateMonitor.handle_update_detected`: dispatch on the player count.
Returns the synchronous action trace together with the updated scheduling
state (the `-1` sentinel aborts; `0` restarts immediately; otherwise the
delayed restart is armed). -/
def handleUpdateDetected (playerCount : Int) (saveOk restartOk : Bool)
    (st : SchedState) : List RAction × SchedState :=
  if playerCount = -1 then ([], st)
  else if playerCount = 0 then
    let res := restartServer saveOk restartOk st.restartScheduled
    (res.1, { st with restartScheduled := res.2 })
  else ([], scheduleRestartWithWarnings st)

/-! ## General lemmas about the embedding -/

theorem int32ToBytes_length (n : Int) : (int32ToBytes n).length = 4 := rfl

/-- Parsing a well-formed frame recovers the body exactly: the two NUL
terminator bytes are stripped and nothing of the body is lost. -/
theorem recvPacket_mkFrameData (reqId ptype : Int) (body : List Nat) :
    recvPacket (mkFrameData reqId ptype body) =
      some (bytesToInt32 (int32ToBytes reqId), bytesToInt32 (int32ToBytes ptype), body) := by
  have h4 : ∀ m : Int, (int32ToBytes m).length = 4 := fun _ => rfl
  set full := mkFrameData reqId ptype body with hfull
  have hlen : full.length = 8 + body.length + 2 := by
    simp [hfull, mkFrameData, List.length_append, h4]; omega
  have h1 : full.take 4 = int32ToBytes reqId := by
    rw [hfull]; unfold mkFrameData
    rw [List.append_assoc, List.append_assoc, List.take_append_of_le_length (by simp [h4]),
      List.take_of_length_le (by simp [h4])]
  have h2 : (full.drop 4).take 4 = int32ToBytes ptype := by
    rw [hfull]; unfold mkFrameData
    rw [List.append_assoc, List.append_assoc,
      List.drop_append_of_le_length (by simp [h4]), List.drop_of_length_le (by simp [h4])]
    simp only [List.nil_append]
    rw [List.take_append_of_le_length (by simp [h4]), List.take_of_length_le (by simp [h4])]
  have h3 : (full.take (full.length - 2)).drop 8 = body := by
    rw [hlen]
    have he : 8 + body.length + 2 - 2 = 8 + body.length := by omega
    rw [he, hfull]; unfold mkFrameData
    have hsplit : int32ToBytes reqId ++ int32ToBytes ptype ++ body ++ [0, 0]
        = (int32ToBytes reqId ++ int32ToBytes ptype ++ body) ++ [0, 0] := by
      simp [List.append_assoc]
    rw [hsplit, List.take_append_of_le_length (by simp [h4]; omega),
      List.take_of_length_le (by simp [h4]; omega),
      List.drop_append_of_le_length (by simp [h4]),
      List.drop_of_length_le (by simp [h4]), List.nil_append]
  unfold recvPacket
  rw [if_neg (by omega), h1, h2, h3]

theorem sendCommandLoop_eq_flatten (events : List ReadEvent) (n : Nat) :
    sendCommandLoop events n = (bodiesRead events n).flatten := by
  induction events generalizing n with
  | nil => cases n <;> rfl
  | cons e rest ih =>
    cases n with
    | zero => cases e <;> rfl
    | succ m =>
      cases e with
      | timeout => rfl
      | sockError => rfl
      | frame data =>
        simp only [sendCommandLoop, bodiesRead]
        cases hrecv : recvPacket data with
        | none => rfl
        | some trip =>
          obtain ⟨r, t, body⟩ := trip
          by_cases hb : body.length = 0
          · simp [hb, List.length_eq_zero.mp hb]
          · simp [hb, ih]

theorem sendCommandLoop_take (events : List ReadEvent) (n : Nat) :
    sendCommandLoop events n = sendCommandLoop (events.take n) n := by
  induction events generalizing n with
  | nil => simp
  | cons e rest ih =>
    cases n with
    | zero => cases e <;> rfl
    | succ m =>
      cases e with
      | timeout => rfl
      | sockError => rfl
      | frame data =>
        simp only [List.take_succ_cons, sendCommandLoop]
        cases hrecv : recvPacket data with
        | none => rfl
        | some trip =>
          obtain ⟨r, t, body⟩ := trip
          by_cases hb : body.length = 0
          · simp [hb]
          · simp [hb, ← ih]

/-- Events after a stopping event (one on which the loop always breaks with
nothing accumulated) never influence the response. -/
theorem sendCommandLoop_stop_irrelevant (e : ReadEvent)
    (he : ∀ rest n, sendCommandLoop (e :: rest) (n + 1) = [])
    (pre rest : List ReadEvent) (n : Nat) :
    sendCommandLoop (pre ++ e :: rest) n = sendCommandLoop (pre ++ [e]) n := by
  induction pre generalizing n with
  | nil =>
    cases n with
    | zero => cases e <;> rfl
    | succ m => rw [List.nil_append, List.nil_append, he, he]
  | cons p ps ih =>
    cases n with
    | zero => cases p <;> rfl
    | succ m =>
      cases p with
      | timeout => rfl
      | sockError => rfl
      | frame data =>
        simp only [List.cons_append, sendCommandLoop]
        cases hrecv : recvPacket data with
        | none => rfl
        | some trip =>
          obtain ⟨r, t, body⟩ := trip
          by_cases hb : body.length = 0
          · simp [hb]
          · simp [hb, ih]

/-- Replacing every key-matching row by a row that itself matches the key
makes `find?` on the key return that row (when a matching row existed). -/
theorem find?_map_replace (t a : String) (r : VersionRecord)
    (hr : keyMatches t a r = true) (store : List VersionRecord)
    (hany : store.any (keyMatches t a) = true) :
    (store.map (fun x => if keyMatches t a x then r else x)).find? (keyMatches t a)
      = some r := by
  induction store with
  | nil => simp at hany
  | cons x xs ih =>
    rw [List.any_cons, Bool.or_eq_true] at hany
    by_cases hx : keyMatches t a x = true
    · simp only [List.map_cons, hx, if_true]
      exact List.find?_cons_of_pos _ hr
    · have hxs : xs.any (keyMatches t a) = true := by
        rcases hany with h | h
        · exact absurd h hx
        · exact h
      simp only [List.map_cons, hx, if_false]
      rw [List.find?_cons_of_neg _ (by simp [hx])]
      exact ih hxs

theorem countKey_cons (t a : String) (y : VersionRecord) (l : List VersionRecord) :
    countKey (y :: l) t a = (if keyMatches t a y = true then 1 else 0) + countKey l t a := by
  by_cases hy : keyMatches t a y = true <;> simp [countKey, List.filter_cons, hy, Nat.add_comm]

/-- The same replacement preserves the number of key-matching rows. -/
theorem countKey_map_replace (t a : String) (r : VersionRecord)
    (hr : keyMatches t a r = true) (store : List VersionRecord) :
    countKey (store.map (fun x => if keyMatches t a x then r else x)) t a
      = countKey store t a := by
  induction store with
  | nil => rfl
  | cons x xs ih =>
    by_cases hx : keyMatches t a x = true
    · rw [List.map_cons, if_pos hx, countKey_cons, countKey_cons, ih, hr, hx]
    · rw [List.map_cons, if_neg hx, countKey_cons, countKey_cons, ih]

theorem find?_append_of_none {α : Type} {p : α → Bool} (l₁ l₂ : List α)
    (h : l₁.find? p = none) : (l₁ ++ l₂).find? p = l₂.find? p := by
  induction l₁ with
  | nil => simp
  | cons x xs ih =>
    by_cases hx : p x = true
    · rw [List.find?_cons_of_pos _ hx] at h
      exact absurd h (by simp)
    · rw [List.find?_cons_of_neg _ (by simp [hx])] at h
      rw [List.cons_append, List.find?_cons_of_neg _ (by simp [hx])]
      exact ih h

theorem countKey_eq_zero_of_find?_none (t a : String) (store : List VersionRecord)
    (h : store.find? (keyMatches t a) = none) : countKey store t a = 0 := by
  rw [List.find?_eq_none] at h
  simp only [countKey, List.length_eq_zero, List.filter_eq_nil_iff]
  exact h

theorem countKey_append_one (t a : String) (store : List VersionRecord)
    (r : VersionRecord) (hr : keyMatches t a r = true) :
    countKey (store ++ [r]) t a = countKey store t a + 1 := by
  simp [countKey, List.filter_append, List.filter_cons, hr]

theorem any_eq_true_of_lookupBuild_some (store : List VersionRecord) (t a b : String)
    (h : lookupBuild store t a = some b) : store.any (keyMatches t a) = true := by
  unfold lookupBuild at h
  cases hf : store.find? (keyMatches t a) with
  | none => rw [hf] at h; simp at h
  | some r =>
    rw [List.any_eq_true]
    exact ⟨r, List.mem_of_find?_eq_some hf, List.find?_some hf⟩

theorem find?_eq_none_of_lookupBuild_none (store : List VersionRecord) (t a : String)
    (h : lookupBuild store t a = none) : store.find? (keyMatches t a) = none := by
  unfold lookupBuild at h
  cases hf : store.find? (keyMatches t a) with
  | none => rfl
  | some r => rw [hf] at h; simp at h

/-! ## Claims -/

/-- C1 (counterexample): the claim says `check_server_mods_need_update`
reports an update whenever some line contains both `"Mod "` and
`"Needs updating"`, even when the last `"CheckModsNeedUpdate:"` marker line
reads `"Mods updated."`. In the code, a last marker line reading
`"Mods updated."` returns `False` before the secondary scan is ever reached:
here the window contains the add-on line, yet the check reports `false`. -/
theorem C1_counterexample :
    secondaryScan ["CheckModsNeedUpdate: Mods updated.", "Mod Foo Needs updating"] = true
    ∧ checkServerModsNeedUpdate true
        ["CheckModsNeedUpdate: Mods updated.", "Mod Foo Needs updating"] [] = false := by
  decide

/-- C1 (amended): the secondary "Mod ... Needs updating" scan decides the
result only when the chronologically last marker line is inconclusive — it
contains neither the "Mods updated." nor the "Mods need update." nor the
"Checking...." verdict; in that case any line containing both `"Mod "` and
`"Needs updating"` makes the check report an update. When the last marker
line reads "Mods updated." the check reports no update regardless of such
lines. -/
theorem C1_secondary_scan_inconclusive_only (logs1 logs2 : List String) (latest : String)
    (h0 : ¬ logs1 = [])
    (h1 : (checkLines logs1).getLast? = some latest) :
    (strContains latest updatedPat = false → strContains latest needUpdatePat = false →
      strContains latest checkingPat = false → secondaryScan logs1 = true →
      checkServerModsNeedUpdate true logs1 logs2 = true)
    ∧ (strContains latest updatedPat = true →
      checkServerModsNeedUpdate true logs1 logs2 = false) := by
  constructor
  · intro h2 h3 h4 h5
    simp [checkServerModsNeedUpdate, h0, h1, h2, h3, h4, h5]
  · intro h2
    simp [checkServerModsNeedUpdate, h0, h1, h2]

theorem C1_secondary_scan_inconclusive_only_witness :
    checkServerModsNeedUpdate true
      ["x CheckModsNeedUpdate: pending", "Mod Foo Needs updating"] [] = true ∧
    checkServerModsNeedUpdate true
      ["CheckModsNeedUpdate: Mods updated.", "Mod Foo Needs updating"] [] = false :=
  ⟨(C1_secondary_scan_inconclusive_only
      ["x CheckModsNeedUpdate: pending", "Mod Foo Needs updating"] []
      "x CheckModsNeedUpdate: pending" (by decide) (by decide)).1
      (by decide) (by decide) (by decide) (by decide),
   (C1_secondary_scan_inconclusive_only
      ["CheckModsNeedUpdate: Mods updated.", "Mod Foo Needs updating"] []
      "CheckModsNeedUpdate: Mods updated." (by decide) (by decide)).2 (by decide)⟩

/-- C2 (counterexample): the claim says a failed restart execution still
clears `restart_scheduled`. In the code, `self.restart_scheduled = False`
is the last statement of the `try` block, so when the `save` command raises
(first conjunct) or the `systemctl restart` raises (second conjunct) while
the flag is armed, the flag stays `true`. -/
theorem C2_counterexample :
    (restartServer false true true).2 = true
    ∧ (restartServer true false true).2 = true := by
  decide

/-- C2 (amended): `restart_server` clears `restart_scheduled` exactly when
both the `save` command and the external restart action succeed; any failure
leaves the flag unchanged (an armed flag stays armed). -/
theorem C2_flag_cleared_only_on_success (saveOk restartOk scheduled : Bool) :
    (restartServer saveOk restartOk scheduled).2
      = if saveOk && restartOk then false else scheduled := by
  cases saveOk <;> cases restartOk <;> rfl

/-- C3: `send_command` returns the concatenation, in arrival order, of the
bodies of the packets read before the loop stops (first conjunct); the loop
never consumes more than the `max_packets = 10` cap (second conjunct: events
beyond the first 10 are irrelevant); events after a zero-length-body packet
are irrelevant (third conjunct) and events after a read timeout are
irrelevant (fourth conjunct); and parsing a well-formed frame yields its
body with the two NUL terminator bytes stripped (fifth conjunct), so they
never enter the returned text. -/
theorem C3_multi_packet_concatenation (events pre rest : List ReadEvent)
    (reqId ptype r t : Int) (body : List Nat) :
    (sendCommand true events).result = Except.ok ((bodiesRead events maxPackets).flatten)
    ∧ sendCommandResponse events = sendCommandResponse (events.take maxPackets)
    ∧ sendCommandLoop (pre ++ ReadEvent.frame (mkFrameData r t []) :: rest) maxPackets
        = sendCommandLoop (pre ++ [ReadEvent.frame (mkFrameData r t [])]) maxPackets
    ∧ sendCommandLoop (pre ++ ReadEvent.timeout :: rest) maxPackets
        = sendCommandLoop (pre ++ [ReadEvent.timeout]) maxPackets
    ∧ recvPacket (mkFrameData reqId ptype body)
        = some (bytesToInt32 (int32ToBytes reqId), bytesToInt32 (int32ToBytes ptype), body) := by
  refine ⟨?_, ?_, ?_, ?_, recvPacket_mkFrameData reqId ptype body⟩
  · show Except.ok (sendCommandLoop events maxPackets) = _
    rw [sendCommandLoop_eq_flatten]
  · exact sendCommandLoop_take events maxPackets
  · refine sendCommandLoop_stop_irrelevant _ ?_ pre rest maxPackets
    intro rest' n
    simp [sendCommandLoop, recvPacket_mkFrameData]
  · exact sendCommandLoop_stop_irrelevant ReadEvent.timeout (fun _ _ => rfl) pre rest maxPackets

/-- C4 (counterexample): the claim says a non-timeout socket error while
reading response packets closes the connection and re-raises. In the code the
read loop's `except Exception: break` swallows the error: after one good
packet and then a socket error, `send_command` returns the partial response
`"ab"` normally and the socket stays open. -/
theorem C4_counterexample :
    (sendCommand true [ReadEvent.frame (mkFrameData 1 0 [97, 98]), ReadEvent.sockError]).result
        = Except.ok [97, 98]
    ∧ (sendCommand true [ReadEvent.frame (mkFrameData 1 0 [97, 98]),
        ReadEvent.sockError]).socketOpen = true :=
  ⟨rfl, rfl⟩

/-- C4 (amended): a non-timeout socket error while reading response packets
merely stops the read loop — `send_command` returns the partial response
accumulated so far and leaves the socket open (conjuncts 1–3); only a
failure of the command send itself (before the read loop) closes the
connection and re-raises (conjuncts 4–5). -/
theorem C4_mid_read_error_returns_partial (events pre rest : List ReadEvent) :
    (sendCommand true events).result = Except.ok (sendCommandLoop events maxPackets)
    ∧ (sendCommand true events).socketOpen = true
    ∧ sendCommandLoop (pre ++ ReadEvent.sockError :: rest) maxPackets
        = sendCommandLoop (pre ++ [ReadEvent.sockError]) maxPackets
    ∧ (sendCommand false events).result = Except.error RCONError.socketError
    ∧ (sendCommand false events).socketOpen = false :=
  ⟨rfl, rfl, sendCommandLoop_stop_irrelevant ReadEvent.sockError (fun _ _ => rfl) pre rest maxPackets,
   rfl, rfl⟩

/-- C5: when the authentication response packet read by `connect` carries
requestId `-1`, `connect` raises the authentication failure and afterwards
the socket has been closed and set to `None` (the `false` component). -/
theorem C5_auth_failure_disconnects (authFrame : List Nat) (reqId ptype : Int)
    (body : List Nat) (h : recvPacket authFrame = some (reqId, ptype, body))
    (hid : reqId = -1) :
    rconConnect true authFrame = (Except.error RCONError.authFailed, false) := by
  subst hid
  simp [rconConnect, h]

theorem C5_auth_failure_disconnects_witness :
    rconConnect true (mkFrameData (-1) 2 [72]) = (Except.error RCONError.authFailed, false) :=
  C5_auth_failure_disconnects (mkFrameData (-1) 2 [72]) (-1) 2 [72] (by decide) rfl

/-- C6: with an existing store record for `(game, app_id)` holding build
`old`, and the remote source returning `onew ≠ old`,
`check_steam_game_update` reports `true`, the stored build for that key
becomes `onew`, the key still has exactly one row, and the row count of the
whole table is unchanged (no duplicate row is created). The hypothesis
`countKey store "game" appId = 1` is the `UNIQUE(type, app_id)` constraint
SQLite enforces on the table. -/
theorem C6_build_change_updates_store (old onew appId : String) (now : Nat)
    (store : List VersionRecord)
    (hold : lookupBuild store "game" appId = some old)
    (hne : old ≠ onew)
    (huniq : countKey store "game" appId = 1) :
    (checkSteamGameUpdate (FetchResult.ok onew) appId now store).1 = true
    ∧ lookupBuild (checkSteamGameUpdate (FetchResult.ok onew) appId now store).2 "game" appId
        = some onew
    ∧ countKey (checkSteamGameUpdate (FetchResult.ok onew) appId now store).2 "game" appId = 1
    ∧ (checkSteamGameUpdate (FetchResult.ok onew) appId now store).2.length
        = store.length := by
  have hkey : keyMatches "game" appId ⟨"game", appId, onew, now⟩ = true := by
    simp [keyMatches]
  have hany := any_eq_true_of_lookupBuild_some store "game" appId old hold
  have hres : checkSteamGameUpdate (FetchResult.ok onew) appId now store
      = (true, store.map (fun x =>
          if keyMatches "game" appId x then ⟨"game", appId, onew, now⟩ else x)) := by
    simp only [checkSteamGameUpdate, hold, if_pos hne]
    unfold upsert
    rw [if_pos hany]
  rw [hres]
  refine ⟨rfl, ?_, ?_, ?_⟩
  · unfold lookupBuild
    rw [find?_map_replace "game" appId _ hkey store hany]
    rfl
  · rw [countKey_map_replace "game" appId _ hkey store, huniq]
  · simp

theorem C6_build_change_updates_store_witness :
    (checkSteamGameUpdate (FetchResult.ok "101") "108600" 7
        [⟨"game", "108600", "100", 1⟩]).1 = true
    ∧ lookupBuild (checkSteamGameUpdate (FetchResult.ok "101") "108600" 7
        [⟨"game", "108600", "100", 1⟩]).2 "game" "108600" = some "101"
    ∧ countKey (checkSteamGameUpdate (FetchResult.ok "101") "108600" 7
        [⟨"game", "108600", "100", 1⟩]).2 "game" "108600" = 1
    ∧ (checkSteamGameUpdate (FetchResult.ok "101") "108600" 7
        [⟨"game", "108600", "100", 1⟩]).2.length = 1 :=
  C6_build_change_updates_store "100" "101" "108600" 7 [⟨"game", "108600", "100", 1⟩]
    (by decide) (by decide) (by decide)

/-- C7: with no store record for `(game, app_id)` and the remote source
returning a build successfully, `check_steam_game_update` reports `false`
and exactly one record holding the observed build is created (the key now
has exactly one row, that row holds the new build, and the table grew by
exactly one row). -/
theorem C7_first_run_no_update (onew appId : String) (now : Nat)
    (store : List VersionRecord)
    (hnone : lookupBuild store "game" appId = none) :
    (checkSteamGameUpdate (FetchResult.ok onew) appId now store).1 = false
    ∧ lookupBuild (checkSteamGameUpdate (FetchResult.ok onew) appId now store).2 "game" appId
        = some onew
    ∧ countKey (checkSteamGameUpdate (FetchResult.ok onew) appId now store).2 "game" appId = 1
    ∧ (checkSteamGameUpdate (FetchResult.ok onew) appId now store).2.length
        = store.length + 1 := by
  have hkey : keyMatches "game" appId ⟨"game", appId, onew, now⟩ = true := by
    simp [keyMatches]
  have hfind := find?_eq_none_of_lookupBuild_none store "game" appId hnone
  have hanyf : store.any (keyMatches "game" appId) = false := by
    rw [List.any_eq_false]
    intro x hx
    simpa using List.find?_eq_none.mp hfind x hx
  have hres : checkSteamGameUpdate (FetchResult.ok onew) appId now store
      = (false, store ++ [⟨"game", appId, onew, now⟩]) := by
    simp only [checkSteamGameUpdate, hnone]
    unfold upsert
    simp [hanyf]
  rw [hres]
  refine ⟨rfl, ?_, ?_, ?_⟩
  · unfold lookupBuild
    rw [find?_append_of_none _ _ hfind, List.find?_cons_of_pos _ hkey]
    rfl
  · rw [countKey_append_one _ _ _ _ hkey, countKey_eq_zero_of_find?_none _ _ _ hfind]
  · simp

theorem C7_first_run_no_update_witness :
    (checkSteamGameUpdate (FetchResult.ok "100") "108600" 3 []).1 = false
    ∧ lookupBuild (checkSteamGameUpdate (FetchResult.ok "100") "108600" 3 []).2
        "game" "108600" = some "100"
    ∧ countKey (checkSteamGameUpdate (FetchResult.ok "100") "108600" 3 []).2
        "game" "108600" = 1
    ∧ (checkSteamGameUpdate (FetchResult.ok "100") "108600" 3 []).2.length = 0 + 1 :=
  C7_first_run_no_update "100" "108600" 3 [] (by decide)

/-- C8: calling `schedule_restart_with_warnings` while `restart_scheduled`
is already `true` is a no-op — no broadcast is appended, no timer is
started, the whole state is unchanged (first conjunct) — and therefore two
arming calls in immediate succession produce exactly the scheduled set of
one arming call (second conjunct). -/
theorem C8_arming_idempotent (st : SchedState) :
    (st.restartScheduled = true → scheduleRestartWithWarnings st = st)
    ∧ scheduleRestartWithWarnings (scheduleRestartWithWarnings st)
        = scheduleRestartWithWarnings st := by
  constructor
  · intro h
    simp [scheduleRestartWithWarnings, h]
  · by_cases h : st.restartScheduled = true
    · simp [scheduleRestartWithWarnings, h]
    · simp [scheduleRestartWithWarnings, h]

theorem C8_arming_idempotent_witness :
    scheduleRestartWithWarnings ⟨true, [], []⟩ = (⟨true, [], []⟩ : SchedState)
    ∧ scheduleRestartWithWarnings (scheduleRestartWithWarnings ⟨false, [], []⟩)
        = scheduleRestartWithWarnings ⟨false, [], []⟩ :=
  ⟨(C8_arming_idempotent ⟨true, [], []⟩).1 rfl,
   (C8_arming_idempotent ⟨false, [], []⟩).2⟩

/-- C9 (counterexample): the claim says the zero-players restart sequence is
broadcast, pause, save, pause, restart. In the code `handle_update_detected`
with count 0 calls `restart_server()` directly, whose sequence is save,
pause, restart: the trace contains no `servermsg` broadcast at all and the
broadcast log is untouched. -/
theorem C9_counterexample :
    (handleUpdateDetected 0 true true ⟨false, [], []⟩).1
        = [RAction.rconCmd "save", RAction.sleepSecs 5, RAction.systemctlRestart]
    ∧ ((handleUpdateDetected 0 true true ⟨false, [], []⟩).1.all
        fun a => !(isServerMsg a)) = true
    ∧ (handleUpdateDetected 0 true true ⟨false, [], []⟩).2.sent = [] := by
  decide

/-- C9 (amended): when the player count query returns 0, the handler
executes the restart synchronously in the same cycle, with the sequence:
send the state-persist (`save`) command, pause 5 seconds, trigger the
external restart action — no final broadcast notice is sent and no timers
are created. -/
theorem C9_zero_players_immediate_restart (st : SchedState) :
    handleUpdateDetected 0 true true st
      = ([RAction.rconCmd "save", RAction.sleepSecs 5, RAction.systemctlRestart],
         { st with restartScheduled := false }) := rfl

/-- C10 (counterexample): the claim says the sentinel `-1` is returned only
when the exchange or the parse raises; but a response whose parenthesised
count field is the text `-1` parses successfully to `-1` and is returned
as-is, with no exception anywhere. -/
theorem C10_counterexample :
    getPlayerCount (some "Players connected (-1)") = -1
    ∧ pyInt (countStrOf "Players connected (-1)") = some (-1) := by
  decide

/-- C10 (amended): every non-raising `players` exchange whose response does
not contain `"Players connected ("` (the empty response included) yields 0 —
the value that routes `handle_update_detected` into the immediate restart
sequence (last conjunct) — and `-1` arises only when the exchange raises
(`none`), when the count slice fails to parse as an int, or when the parsed
count itself is `-1`. -/
theorem C10_player_count_routes (resp : String) (st : SchedState) :
    (strContains resp playersPat = false → getPlayerCount (some resp) = 0)
    ∧ getPlayerCount (some "") = 0
    ∧ getPlayerCount none = -1
    ∧ (getPlayerCount (some resp) = -1 →
        strContains resp playersPat = true
        ∧ (pyInt (countStrOf resp) = none ∨ pyInt (countStrOf resp) = some (-1)))
    ∧ (handleUpdateDetected 0 true true st).1
        = [RAction.rconCmd "save", RAction.sleepSecs 5, RAction.systemctlRestart] := by
  refine ⟨?_, rfl, rfl, ?_, rfl⟩
  · intro h
    simp [getPlayerCount, h]
  · intro hneg
    by_cases h1 : strContains resp playersPat = true
    · refine ⟨h1, ?_⟩
      by_cases h0 : resp = ""
      · rw [h0] at h1
        exact absurd h1 (by decide)
      · cases hp : pyInt (countStrOf resp) with
        | none => exact Or.inl rfl
        | some k =>
          have hk : k = -1 := by
            simp [getPlayerCount, h0, h1, hp] at hneg
            exact hneg
          exact Or.inr (by rw [hk])
    · rw [Bool.not_eq_true] at h1
      simp [getPlayerCount, h1] at hneg

theorem C10_player_count_routes_witness :
    getPlayerCount (some "no such header here") = 0
    ∧ getPlayerCount (some "") = 0
    ∧ getPlayerCount none = -1
    ∧ (strContains "Players connected (-1)" playersPat = true
        ∧ (pyInt (countStrOf "Players connected (-1)") = none
          ∨ pyInt (countStrOf "Players connected (-1)") = some (-1)))
    ∧ (handleUpdateDetected 0 true true ⟨false, [], []⟩).1
        = [RAction.rconCmd "save", RAction.sleepSecs 5, RAction.systemctlRestart] :=
  ⟨(C10_player_count_routes "no such header here" ⟨false, [], []⟩).1 (by decide),
   (C10_player_count_routes "" ⟨false, [], []⟩).2.1,
   (C10_player_count_routes "" ⟨false, [], []⟩).2.2.1,
   (C10_player_count_routes "Players connected (-1)" ⟨false, [], []⟩).2.2.2.1 (by decide),
   (C10_player_count_routes "" ⟨false, [], []⟩).2.2.2.2⟩

end PZ
